import Mathlib

/-!
Verification development for the toppershike catalog service.

The definitions below are shallow embeddings of the JavaScript source:
  * `videoController.js`   — list/get/create/update/delete handlers
  * `validation.js`        — express-validator rule declarations
  * `utils/youtube.js`     — YouTube id extraction and derived URL builders
  * the validators module  — `validatePagination`, `validateSort`
  * the model module       — the Video schema (fields used by the handlers)

HTTP query values are modelled as `Option String` (absent = `none`);
JavaScript numbers reaching the pagination math are modelled as `ℤ`
(`parseInt` either yields an integer or `NaN`, modelled as `Option ℤ`);
the MongoDB collection is modelled as a `List Entry`.
-/

/-! ## JavaScript numeric coercions -/

/-- Value of a list of decimal digit characters. -/
def digitsToNat (l : List Char) : ℕ :=
  l.foldl (fun a c => a * 10 + (c.toNat - 48)) 0

/-- Longest leading digit run, `none` when there is none. -/
def parseDigits (l : List Char) : Option ℕ :=
  let ds := l.takeWhile (fun c => c.isDigit)
  if ds = [] then none else some (digitsToNat ds)

/-- JavaScript `parseInt(s, 10)`: skip leading whitespace, optional sign,
longest digit run; `none` models `NaN`. -/
def parseIntJS (s : String) : Option ℤ :=
  match s.toList.dropWhile (fun c => c.isWhitespace) with
  | '-' :: rest => (parseDigits rest).map (fun n => -(n : ℤ))
  | '+' :: rest => (parseDigits rest).map (fun n => (n : ℤ))
  | l => (parseDigits l).map (fun n => (n : ℤ))

/-- JavaScript `x || d` for a number `x` that may be `NaN` (`none`):
`NaN` and `0` are falsy and give the default. -/
def jsNumOr (v : Option ℤ) (d : ℤ) : ℤ :=
  match v with
  | none => d
  | some n => if n = 0 then d else n

/-! ## Request parameters -/

/-- The query parameters read by `getAllVideos` (videoController.js:43-55). -/
structure ListParams where
  page : Option String
  limit : Option String
  bookTitle : Option String
  chapter : Option String
  type : Option String
  subject : Option String
  grade : Option String
  difficulty : Option String
  search : Option String
  sortBy : Option String
  sortOrder : Option String
deriving DecidableEq

/-- A request with every query parameter absent. -/
def emptyListParams : ListParams :=
  ⟨none, none, none, none, none, none, none, none, none, none, none⟩

/-- JavaScript truthiness of an optional string: the empty string is falsy,
so a present-but-empty parameter behaves like an absent one. -/
def present (o : Option String) : Option String :=
  match o with
  | some "" => none
  | x => x

/-! ## Pagination parameter handling -/

/-- videoController.js:80 — `const pageNumber = parseInt(page, 10) || 1;`
(`page` defaults to `1` by destructuring when absent). -/
def effectivePageNumber (page : Option String) : ℤ :=
  jsNumOr (parseIntJS (page.getD "1")) 1

/-- videoController.js:81 —
`const pageSize = Math.min(parseInt(limit, 10) || 10, 50);`
(`limit` defaults to `10` by destructuring when absent). -/
def effectivePageSize (limit : Option String) : ℤ :=
  min (jsNumOr (parseIntJS (limit.getD "10")) 10) 50

/-- Result of the validators module `validatePagination`. -/
structure PageAndLimit where
  page : ℤ
  limit : ℤ
deriving DecidableEq

/-- Validators module, `validatePagination` (lines 111-116):
`page = Math.max(1, parseInt(query.page) || 1)` and
`limit = Math.min(50, Math.max(1, parseInt(query.limit) || 10))`.
`parseInt(undefined)` is `NaN`, modelled by parsing the empty string. -/
def validatePagination (query : ListParams) : PageAndLimit :=
  { page := max 1 (jsNumOr (parseIntJS (query.page.getD "")) 1)
    limit := min 50 (max 1 (jsNumOr (parseIntJS (query.limit.getD "")) 10)) }

/-- Default `allowedFields` argument of `validateSort`. -/
def defaultSortFields : List String := ["createdAt", "updatedAt", "title", "views"]

/-- Validators module, `validateSort` (lines 125-130): fall back to
`createdAt` / `desc` when the inputs are not in the allowed lists. -/
def validateSort (sortBy sortOrder : String) (allowedFields : List String) :
    String × String :=
  (if sortBy ∈ allowedFields then sortBy else "createdAt",
   if sortOrder ∈ ["asc", "desc"] then sortOrder else "desc")

/-- videoController.js:85-86 — `sortOptions[sortBy] = sortOrder === 'desc' ? -1 : 1;`
The controller uses `sortBy` verbatim as the field name. -/
def sortOptionsOf (sortBy sortOrder : String) : String × ℤ :=
  (sortBy, if sortOrder = "desc" then -1 else 1)

/-! ## The express-validator query rules (validation.js:105-137) -/

/-- `validator.isInt`: the whole string is an optionally signed decimal
integer. -/
def strictParseInt (s : String) : Option ℤ :=
  match s.toList with
  | [] => none
  | '-' :: rest =>
      if rest = [] then none
      else if rest.all (fun c => c.isDigit) then some (-(digitsToNat rest : ℤ))
      else none
  | '+' :: rest =>
      if rest = [] then none
      else if rest.all (fun c => c.isDigit) then some ((digitsToNat rest : ℤ))
      else none
  | l => if l.all (fun c => c.isDigit) then some ((digitsToNat l : ℤ)) else none

/-- Whether a request passes every rule of `queryValidationRules`
(validation.js:105-137): `page` optional int ≥ 1, `limit` optional int in
[1,50], `type` in {video,image}, `difficulty` in {easy,medium,hard},
`sortBy` in {createdAt,updatedAt,title,views,likes}, `sortOrder` in
{asc,desc}.  The route attaches these rules, but `getAllVideos` never
reads `validationResult`, so a failing request is not rejected. -/
def queryValidationRulesPass (p : ListParams) : Bool :=
  (match p.page with
   | none => true
   | some s =>
     match strictParseInt s with
     | some n => decide (1 ≤ n)
     | none => false) &&
  (match p.limit with
   | none => true
   | some s =>
     match strictParseInt s with
     | some n => decide (1 ≤ n ∧ n ≤ 50)
     | none => false) &&
  (match p.type with
   | none => true
   | some s => decide (s = "video" ∨ s = "image")) &&
  (match p.difficulty with
   | none => true
   | some s => decide (s = "easy" ∨ s = "medium" ∨ s = "hard")) &&
  (match p.sortBy with
   | none => true
   | some s => decide (s ∈ ["createdAt", "updatedAt", "title", "views", "likes"])) &&
  (match p.sortOrder with
   | none => true
   | some s => decide (s = "asc" ∨ s = "desc"))

/-! ## The catalog entry (Video schema, fields used by the handlers) -/

/-- A stored catalog document.  `subject`/`grade` are optional in the
schema; `difficulty` has a schema default, so it is always present;
`createdAt`/`updatedAt` timestamps are modelled as naturals. -/
structure Entry where
  id : ℕ
  title : String
  description : String
  bookTitle : String
  chapter : String
  type : String
  subject : Option String
  grade : Option String
  difficulty : String
  tags : List String
  views : ℕ
  likes : ℕ
  isActive : Bool
  createdAt : ℕ
  updatedAt : ℕ
deriving DecidableEq

/-! ## Substring matching (the handlers build `new RegExp(input, 'i')`
from raw filter text; with regex metacharacters aside, this is
case-insensitive substring search) -/

/-- Does the second list start with the first one? -/
def matchList : List Char → List Char → Bool
  | [], _ => true
  | _ :: _, [] => false
  | m :: ms, c :: cl => m == c && matchList ms cl

/-- Does `p` occur contiguously anywhere in the second list? -/
def containsList (p : List Char) : List Char → Bool
  | [] => p.isEmpty
  | c :: cl => matchList p (c :: cl) || containsList p cl

/-- `new RegExp(pat, 'i').test s` for metacharacter-free `pat`:
case-insensitive substring match. -/
def regexICMatches (pat s : String) : Bool :=
  containsList (pat.toList.map Char.toLower) (s.toList.map Char.toLower)

/-! ## The filter object built by `getAllVideos` (videoController.js:57-77) -/

/-- Whether an entry matches the query object `{ isActive: true, ... }`
assembled from the request: every truthy parameter adds an AND clause;
`search` adds one OR-group over title/description/bookTitle/chapter/tags. -/
def queryMatches (p : ListParams) (e : Entry) : Bool :=
  e.isActive &&
  (match present p.bookTitle with
   | some v => regexICMatches v e.bookTitle
   | none => true) &&
  (match present p.chapter with
   | some v => regexICMatches v e.chapter
   | none => true) &&
  (match present p.type with
   | some v => e.type == v
   | none => true) &&
  (match present p.subject with
   | some v =>
     match e.subject with
     | some s => regexICMatches v s
     | none => false
   | none => true) &&
  (match present p.grade with
   | some v =>
     match e.grade with
     | some g => g == v
     | none => false
   | none => true) &&
  (match present p.difficulty with
   | some v => e.difficulty == v
   | none => true) &&
  (match present p.search with
   | some v =>
     regexICMatches v e.title || regexICMatches v e.description ||
     regexICMatches v e.bookTitle || regexICMatches v e.chapter ||
     e.tags.any (fun t => regexICMatches v t)
   | none => true)

/-! ## Sorting (`.sort(sortOptions)`) -/

/-- Insert one element into an already built run. -/
def insertSorted {α : Type} (le : α → α → Bool) (a : α) : List α → List α
  | [] => [a]
  | b :: l => if le a b then a :: b :: l else b :: insertSorted le a l

/-- Stable comparison sort used to model the store's `.sort`. -/
def sortListBy {α : Type} (le : α → α → Bool) : List α → List α
  | [] => []
  | a :: l => insertSorted le a (sortListBy le l)

/-- Comparison for `.sort({ [sortBy]: dir })`.  A field name outside the
schema sorts nothing (the store treats every document as equal there). -/
def entryLe (field : String) (dir : ℤ) (a b : Entry) : Bool :=
  if field = "createdAt" then
    (if dir = -1 then decide (b.createdAt ≤ a.createdAt) else decide (a.createdAt ≤ b.createdAt))
  else if field = "updatedAt" then
    (if dir = -1 then decide (b.updatedAt ≤ a.updatedAt) else decide (a.updatedAt ≤ b.updatedAt))
  else if field = "title" then
    (if dir = -1 then decide (b.title ≤ a.title) else decide (a.title ≤ b.title))
  else if field = "views" then
    (if dir = -1 then decide (b.views ≤ a.views) else decide (a.views ≤ b.views))
  else if field = "likes" then
    (if dir = -1 then decide (b.likes ≤ a.likes) else decide (a.likes ≤ b.likes))
  else true

/-! ## Pagination metadata (videoController.js:98-113) -/

/-- The `pagination` object of the list response. -/
structure Pagination where
  currentPage : ℤ
  totalPages : ℤ
  totalCount : ℕ
  hasNextPage : Bool
  hasPrevPage : Bool
  nextPage : Option ℤ
  prevPage : Option ℤ

/-- videoController.js:99-113 —
`totalPages = Math.ceil(totalCount / pageSize)`,
`hasNextPage = pageNumber < totalPages`, `hasPrevPage = pageNumber > 1`,
`nextPage`/`prevPage` are the adjacent page or `null`. -/
def computePagination (totalCount : ℕ) (pageNumber pageSize : ℤ) : Pagination :=
  let totalPages : ℤ := ⌈(totalCount : ℚ) / (pageSize : ℚ)⌉
  { currentPage := pageNumber
    totalPages := totalPages
    totalCount := totalCount
    hasNextPage := decide (pageNumber < totalPages)
    hasPrevPage := decide (1 < pageNumber)
    nextPage := if pageNumber < totalPages then some (pageNumber + 1) else none
    prevPage := if 1 < pageNumber then some (pageNumber - 1) else none }

/-! ## The list handler (videoController.js:41-134) -/

/-- The JSON the handler answers with.  The happy path always responds
`200 { success: true, ... }`; `getAllVideos` contains no validation
check, so no request parameter can divert it from this path. -/
structure ListResponse where
  status : ℕ
  success : Bool
  data : List Entry
  pagination : Pagination

/-- `getAllVideos`: build the filter, compute page/limit/skip and the sort
pair, fetch `skip`/`limit` of the sorted filtered store, count matches,
and derive pagination metadata.  (A negative `skip`/`limit` is a store
error in the real system; `Int.toNat` clamps only so the slice is
well-typed — the claims about negative values are settled on
`effectivePageNumber`/`effectivePageSize` themselves.) -/
def getAllVideos (store : List Entry) (p : ListParams) : ListResponse :=
  let pageNumber := effectivePageNumber p.page
  let pageSize := effectivePageSize p.limit
  let skip := (pageNumber - 1) * pageSize
  let s := sortOptionsOf (p.sortBy.getD "createdAt") (p.sortOrder.getD "desc")
  let filtered := store.filter (fun e => queryMatches p e)
  let sorted := sortListBy (entryLe s.1 s.2) filtered
  let videos := (sorted.drop skip.toNat).take pageSize.toNat
  let totalCount := filtered.length
  { status := 200
    success := true
    data := videos
    pagination := computePagination totalCount pageNumber pageSize }

/-! ## The single-item handler (videoController.js:139-176) -/

/-- `getVideoById`: `findById`, 404 when missing or inactive, otherwise
increment the view counter and return the updated document. -/
def getVideoById (store : List Entry) (i : ℕ) : Option Entry :=
  (store.find? (fun e => e.id == i)).bind
    (fun v => if v.isActive then some { v with views := v.views + 1 } else none)

/-! ## The delete handler (videoController.js:343-363) -/

/-- `deleteVideo`: `findByIdAndUpdate(id, { isActive: false })` — the
lookup does not filter on `isActive`, so an already soft-deleted entry is
still found and updated; only a missing id gives 404 (`none`).  Ids are
unique in the store, so updating every id match models the single-document
update. -/
def deleteVideo (store : List Entry) (i : ℕ) : Option (List Entry) :=
  if store.any (fun e => e.id == i) then
    some (store.map (fun e => if e.id == i then { e with isActive := false } else e))
  else none

/-! ## Metadata and statistics handlers (videoController.js:386-484) -/

/-- `getUniqueBooks`: `distinct('bookTitle', { isActive: true })`, sorted. -/
def getUniqueBooks (store : List Entry) : List String :=
  sortListBy (fun a b => decide (a ≤ b))
    (((store.filter (fun e => e.isActive)).map (fun e => e.bookTitle)).dedup)

/-- `getChaptersByBook`: `distinct('chapter', { bookTitle: /bookTitle/i, isActive: true })`, sorted. -/
def getChaptersByBook (store : List Entry) (bookTitle : String) : List String :=
  sortListBy (fun a b => decide (a ≤ b))
    (((store.filter (fun e => regexICMatches bookTitle e.bookTitle && e.isActive)).map
        (fun e => e.chapter)).dedup)

/-- Totals block of the statistics response. -/
structure StatsTotals where
  videos : ℕ
  images : ℕ
  views : ℕ
  total : ℕ

/-- The statistics response (`topBooks` entries are `(bookTitle, count)`
pairs; `recentVideos` keeps whole entries — the handler projects a few
fields for display only). -/
structure StatsResponse where
  totals : StatsTotals
  topBooks : List (String × ℕ)
  recentVideos : List Entry

/-- `getVideoStats`: every one of the five store queries restricts to
`isActive: true`. -/
def getVideoStats (store : List Entry) : StatsResponse :=
  let totalVideos := (store.filter (fun e => e.type == "video" && e.isActive)).length
  let totalImages := (store.filter (fun e => e.type == "image" && e.isActive)).length
  let active := store.filter (fun e => e.isActive)
  let totalViews := (active.map (fun e => e.views)).sum
  let titles := (active.map (fun e => e.bookTitle)).dedup
  let counts := titles.map (fun b => (b, (active.filter (fun e => e.bookTitle == b)).length))
  let topBooks := (sortListBy (fun a b => decide (b.2 ≤ a.2)) counts).take 10
  let recent := (sortListBy (fun a b => decide (b.createdAt ≤ a.createdAt)) active).take 5
  { totals :=
      { videos := totalVideos
        images := totalImages
        views := totalViews
        total := totalVideos + totalImages }
    topBooks := topBooks
    recentVideos := recent }

/-! ## YouTube id extraction (videoController.js:13-34)

Each of the four regular expressions has the shape
`/(?:https?:\/\/)?(?:www\.)?MARKER([^&\n?#]+)/` for a fixed marker
string.  The two leading groups are optional and stand before the
marker, so they never change the captured token: a URL matches exactly
when the marker occurs followed by at least one non-delimiter
character, and the capture is the maximal delimiter-free run after the
first such occurrence.  `patSearch` implements precisely that. -/

/-- The delimiter class `[&\n?#]` ending a captured token. -/
def isDelim (c : Char) : Bool :=
  decide (c = '&') || decide (c = '\n') || decide (c = '?') || decide (c = '#')

/-- The token charset `[a-zA-Z0-9_-]` of a YouTube video id. -/
def isIdChar (c : Char) : Bool :=
  decide ('a' ≤ c ∧ c ≤ 'z') || decide ('A' ≤ c ∧ c ≤ 'Z') ||
  decide ('0' ≤ c ∧ c ≤ '9') || decide (c = '_') || decide (c = '-')

/-- Try the pattern at the head of `s`: the marker must match and be
followed by a nonempty delimiter-free run, which is the capture. -/
def patMatchAt (m s : List Char) : Option (List Char) :=
  if matchList m s then
    let cap := (s.drop m.length).takeWhile (fun c => !isDelim c)
    if cap = [] then none else some cap
  else none

/-- Leftmost match of the pattern anywhere in the string (the regexes are
unanchored). -/
def patSearch (m : List Char) : List Char → Option (List Char)
  | [] => patMatchAt m []
  | c :: cl =>
    match patMatchAt m (c :: cl) with
    | some r => some r
    | none => patSearch m cl

/-- Marker of the watch-page pattern (videoController.js:18). -/
def watchMarker : List Char := "youtube.com/watch?v=".toList

/-- Marker of the short-link pattern (videoController.js:19). -/
def shortMarker : List Char := "youtu.be/".toList

/-- Marker of the embed-page pattern (videoController.js:20). -/
def embedMarker : List Char := "youtube.com/embed/".toList

/-- Marker of the legacy direct-play pattern (videoController.js:21). -/
def legacyMarker : List Char := "youtube.com/v/".toList

/-- `extractYoutubeVideoId`: try the four patterns in order and return the
first capture, `none` when no pattern matches. -/
def extractYoutubeVideoId (url : List Char) : Option (List Char) :=
  match patSearch watchMarker url with
  | some v => some v
  | none =>
    match patSearch shortMarker url with
    | some v => some v
    | none =>
      match patSearch embedMarker url with
      | some v => some v
      | none => patSearch legacyMarker url

/-! ## The four accepted URL shapes, with optional protocol and `www.` -/

/-- Optional scheme and `www.` part: `none` = no scheme, `some true` =
`https://`, `some false` = `http://`. -/
def protoWww (proto : Option Bool) (www : Bool) : List Char :=
  (match proto with
   | none => []
   | some true => "https://".toList
   | some false => "http://".toList) ++
  (if www then "www.".toList else [])

/-- Watch-page URL carrying the token `id`. -/
def urlWatch (proto : Option Bool) (www : Bool) (id : List Char) : List Char :=
  protoWww proto www ++ (watchMarker ++ id)

/-- Short-link URL carrying the token `id`. -/
def urlShort (proto : Option Bool) (www : Bool) (id : List Char) : List Char :=
  protoWww proto www ++ (shortMarker ++ id)

/-- Embed-page URL carrying the token `id`. -/
def urlEmbed (proto : Option Bool) (www : Bool) (id : List Char) : List Char :=
  protoWww proto www ++ (embedMarker ++ id)

/-- Legacy direct-play URL carrying the token `id`. -/
def urlLegacy (proto : Option Bool) (www : Bool) (id : List Char) : List Char :=
  protoWww proto www ++ (legacyMarker ++ id)

/-! ## Embed URL construction (utils/youtube.js:39-56) -/

/-- The options object accepted by `getEmbedUrl`.  Booleans are tested
with `if (options.x)` (truthiness) for `autoplay`/`mute` and with
`!== undefined` for `controls`/`showinfo`/`rel`; `start`/`end` are
numbers tested for truthiness (so `0` is falsy). -/
structure EmbedOptions where
  autoplay : Option Bool
  mute : Option Bool
  controls : Option Bool
  showinfo : Option Bool
  rel : Option Bool
  start : Option ℕ
  «end» : Option ℕ
deriving DecidableEq

/-- The fixed embed-host template. -/
def embedBase (videoId : String) : String :=
  "https://www.youtube.com/embed/" ++ videoId

/-- `URLSearchParams.toString()` on `name=value` pairs. -/
def joinAmp : List String → String
  | [] => ""
  | [s] => s
  | s :: rest => s ++ "&" ++ joinAmp rest

/-- `getEmbedUrl(videoId, options)` (utils/youtube.js:39-56):
`null` for a falsy id; otherwise the embed template plus a query string
assembled from the requested options in declaration order. -/
def getEmbedUrl (videoId : String) (options : EmbedOptions) : Option String :=
  if videoId = "" then none
  else
    let params : List String :=
      (if options.autoplay = some true then ["autoplay=1"] else []) ++
      (if options.mute = some true then ["mute=1"] else []) ++
      (match options.controls with
       | some b => ["controls=" ++ (if b then "1" else "0")]
       | none => []) ++
      (match options.showinfo with
       | some b => ["showinfo=" ++ (if b then "1" else "0")]
       | none => []) ++
      (match options.rel with
       | some b => ["rel=" ++ (if b then "1" else "0")]
       | none => []) ++
      (match options.start with
       | some n => if n = 0 then [] else ["start=" ++ toString n]
       | none => []) ++
      (match options.«end» with
       | some n => if n = 0 then [] else ["end=" ++ toString n]
       | none => [])
    let queryString := joinAmp params
    if queryString = "" then some (embedBase videoId)
    else some (embedBase videoId ++ "?" ++ queryString)

/-! ## Spec-side definitions (phrased after the specification text, to be
compared with the code-side definitions above) -/

/-- Pagination metadata as the specification words it: `totalPages` is the
integer ceiling of `totalCount / limit`, the two flags compare the page
against the bounds, and the adjacent page numbers are present exactly when
the corresponding flag is set. -/
def paginationSpec (totalCount : ℕ) (page : ℤ) (limit : ℕ) (pg : Pagination) : Prop :=
  pg.totalPages = ((totalCount + limit - 1) / limit : ℕ) ∧
  pg.totalCount = totalCount ∧
  pg.currentPage = page ∧
  (pg.hasNextPage = true ↔ page < pg.totalPages) ∧
  (pg.hasPrevPage = true ↔ 1 < page) ∧
  (pg.hasNextPage = true → pg.nextPage = some (page + 1)) ∧
  (pg.hasNextPage = false → pg.nextPage = none) ∧
  (pg.hasPrevPage = true → pg.prevPage = some (page - 1)) ∧
  (pg.hasPrevPage = false → pg.prevPage = none)

/-- Embed query parameters as the amended specification words them:
`autoplay`/`mute` appear (as `1`) exactly when requested true;
`controls`/`showinfo`/`rel` appear as `1`/`0` exactly when supplied;
`start`/`end` appear verbatim exactly when supplied nonzero, so an
explicit `0` offset is omitted. -/
def embedParamsSpec (o : EmbedOptions) : List String :=
  List.filterMap (fun x => x)
    [o.autoplay.bind (fun b => if b then some "autoplay=1" else none),
     o.mute.bind (fun b => if b then some "mute=1" else none),
     o.controls.map (fun b => "controls=" ++ (if b then "1" else "0")),
     o.showinfo.map (fun b => "showinfo=" ++ (if b then "1" else "0")),
     o.rel.map (fun b => "rel=" ++ (if b then "1" else "0")),
     o.start.bind (fun n => if n = 0 then none else some ("start=" ++ toString n)),
     o.«end».bind (fun n => if n = 0 then none else some ("end=" ++ toString n))]

/-- Assembling an embed URL from a parameter list: the bare template when
no parameter was requested. -/
def assembleEmbedUrl (videoId : String) (params : List String) : String :=
  if params = [] then embedBase videoId
  else embedBase videoId ++ "?" ++ joinAmp params

/-! ## Helper lemmas: sorting membership -/

lemma mem_insertSorted {α : Type} {le : α → α → Bool} {a x : α} {l : List α} :
    x ∈ insertSorted le a l ↔ x = a ∨ x ∈ l := by
  induction l with
  | nil => simp [insertSorted]
  | cons b l ih =>
    by_cases h : le a b
    · simp [insertSorted, h]
    · simp [insertSorted, h, ih]
      tauto

lemma mem_sortListBy {α : Type} {le : α → α → Bool} {x : α} {l : List α} :
    x ∈ sortListBy le l ↔ x ∈ l := by
  induction l with
  | nil => simp [sortListBy]
  | cons a l ih => simp [sortListBy, mem_insertSorted, ih]

/-! ## Helper lemmas: pattern search -/

lemma matchList_append_self (m t : List Char) : matchList m (m ++ t) = true := by
  induction m with
  | nil => rfl
  | cons c ms ih => simp [matchList, ih]

lemma matchList_absent {bad : Char} :
    ∀ (m t : List Char), bad ∈ m → (∀ c ∈ t, c ≠ bad) → matchList m t = false := by
  intro m
  induction m with
  | nil => intro t h; exact absurd h (List.not_mem_nil bad)
  | cons x ms ih =>
    intro t hbad ht
    cases t with
    | nil => rfl
    | cons c cl =>
      rcases List.mem_cons.mp hbad with h1 | h2
      · have hc : (x == c) = false := by
          refine beq_eq_false_iff_ne.mpr ?_
          intro hxc
          exact (ht c (List.mem_cons_self c cl)) (hxc ▸ h1.symm)
        simp [matchList, hc]
      · have : matchList ms cl = false :=
          ih cl h2 (fun c hc => ht c (List.mem_cons_of_mem _ hc))
        simp [matchList, this]

lemma patMatchAt_nil (m : List Char) : patMatchAt m [] = none := by
  cases m with
  | nil => rfl
  | cons x ms => rfl

lemma patSearch_cons_step (m : List Char) (c : Char) (cl : List Char)
    (h : patMatchAt m (c :: cl) = none) :
    patSearch m (c :: cl) = patSearch m cl := by
  simp [patSearch, h]

lemma patSearch_absent (m : List Char) (bad : Char) (hbad : bad ∈ m) :
    ∀ t : List Char, (∀ c ∈ t, c ≠ bad) → patSearch m t = none := by
  intro t
  induction t with
  | nil => intro _; simpa [patSearch] using patMatchAt_nil m
  | cons c cl ih =>
    intro ht
    have hmm : matchList m (c :: cl) = false := matchList_absent m (c :: cl) hbad ht
    have hnone : patMatchAt m (c :: cl) = none := by simp [patMatchAt, hmm]
    rw [patSearch_cons_step m c cl hnone]
    exact ih (fun c hc => ht c (List.mem_cons_of_mem _ hc))

lemma patSearch_skip (m : List Char) (y : Char) (hm : m.head? = some y) :
    ∀ (pre t : List Char), (∀ c ∈ pre, c ≠ y) → patSearch m (pre ++ t) = patSearch m t := by
  intro pre
  induction pre with
  | nil => intro t _; rfl
  | cons c cl ih =>
    intro t h
    cases m with
    | nil => simp at hm
    | cons x ms =>
      have hxy : x = y := by simpa using hm
      subst hxy
      have hc : c ≠ x := h c (List.mem_cons_self c cl)
      have hmm : matchList (x :: ms) (c :: (cl ++ t)) = false := by
        have : (x == c) = false := beq_eq_false_iff_ne.mpr (fun hxc => hc hxc.symm)
        simp [matchList, this]
      have hnone : patMatchAt (x :: ms) (c :: (cl ++ t)) = none := by
        simp [patMatchAt, hmm]
      have step := patSearch_cons_step (x :: ms) c (cl ++ t) hnone
      calc patSearch (x :: ms) ((c :: cl) ++ t)
          = patSearch (x :: ms) (cl ++ t) := step
        _ = patSearch (x :: ms) t := ih t (fun c hc => h c (List.mem_cons_of_mem _ hc))

lemma patSearch_hit (m t : List Char) (hm : m ≠ [])
    (ht : ∀ c ∈ t, isDelim c = false) (hne : t ≠ []) :
    patSearch m (m ++ t) = some t := by
  cases m with
  | nil => exact absurd rfl hm
  | cons y ms =>
    have hmatch : matchList (y :: ms) ((y :: ms) ++ t) = true :=
      matchList_append_self (y :: ms) t
    have hdrop : ((y :: ms) ++ t).drop (y :: ms).length = t := List.drop_left (y :: ms) t
    have htake : t.takeWhile (fun c => !isDelim c) = t :=
      List.takeWhile_eq_self_iff.mpr (fun c hc => by simp [ht c hc])
    have hat : patMatchAt (y :: ms) ((y :: ms) ++ t) = some t := by
      simp only [patMatchAt, hmatch, if_true, hdrop, htake]
      simp [hne]
    show patSearch (y :: ms) (y :: (ms ++ t)) = some t
    simp [patSearch]
    have : y :: (ms ++ t) = (y :: ms) ++ t := rfl
    rw [this, hat]

/-! ## Helper lemmas: the token charset avoids delimiters and markers -/

lemma not_isDelim_of_isIdChar (c : Char) (h : isIdChar c = true) : isDelim c = false := by
  simp only [isIdChar, Bool.or_eq_true, decide_eq_true_eq] at h
  simp only [isDelim, Bool.or_eq_false_iff, decide_eq_false_iff_not]
  refine ⟨⟨⟨?_, ?_⟩, ?_⟩, ?_⟩ <;> rintro rfl <;> exact absurd h (by decide)

lemma ne_dot_of_isIdChar (c : Char) (h : isIdChar c = true) : c ≠ '.' := by
  rintro rfl
  exact absurd h (by decide)

lemma protoWww_no_y (proto : Option Bool) (www : Bool) :
    ∀ c ∈ protoWww proto www, c ≠ 'y' := by
  rcases proto with _ | b
  · cases www <;> decide
  · cases b <;> cases www <;> decide

/-! ## Helper lemmas: which pattern matches which URL shape.
The mismatches below all happen inside the concrete part of the URL
(e.g. the watch marker disagrees with `youtu.be/` at the sixth
character), so `rfl` decides the head test and only the skipped tail
depends on the token. -/

lemma watch_miss_short (id : List Char) (hdot : ∀ c ∈ id, c ≠ '.') :
    patSearch watchMarker (shortMarker ++ id) = none := by
  have e1 : shortMarker ++ id = 'y' :: ("outu.be/".toList ++ id) := rfl
  rw [e1, patSearch_cons_step watchMarker 'y' ("outu.be/".toList ++ id) rfl,
    patSearch_skip watchMarker 'y' rfl "outu.be/".toList id (by decide)]
  exact patSearch_absent watchMarker '.' (by decide) id hdot

lemma watch_miss_embed (id : List Char) (hdot : ∀ c ∈ id, c ≠ '.') :
    patSearch watchMarker (embedMarker ++ id) = none := by
  have e1 : embedMarker ++ id = 'y' :: ("outube.com/embed/".toList ++ id) := rfl
  rw [e1, patSearch_cons_step watchMarker 'y' ("outube.com/embed/".toList ++ id) rfl,
    patSearch_skip watchMarker 'y' rfl "outube.com/embed/".toList id (by decide)]
  exact patSearch_absent watchMarker '.' (by decide) id hdot

lemma short_miss_embed (id : List Char) (hdot : ∀ c ∈ id, c ≠ '.') :
    patSearch shortMarker (embedMarker ++ id) = none := by
  have e1 : embedMarker ++ id = 'y' :: ("outube.com/embed/".toList ++ id) := rfl
  rw [e1, patSearch_cons_step shortMarker 'y' ("outube.com/embed/".toList ++ id) rfl,
    patSearch_skip shortMarker 'y' rfl "outube.com/embed/".toList id (by decide)]
  exact patSearch_absent shortMarker '.' (by decide) id hdot

lemma watch_miss_legacy (id : List Char) (hdot : ∀ c ∈ id, c ≠ '.') :
    patSearch watchMarker (legacyMarker ++ id) = none := by
  have e1 : legacyMarker ++ id = 'y' :: ("outube.com/v/".toList ++ id) := rfl
  rw [e1, patSearch_cons_step watchMarker 'y' ("outube.com/v/".toList ++ id) rfl,
    patSearch_skip watchMarker 'y' rfl "outube.com/v/".toList id (by decide)]
  exact patSearch_absent watchMarker '.' (by decide) id hdot

lemma short_miss_legacy (id : List Char) (hdot : ∀ c ∈ id, c ≠ '.') :
    patSearch shortMarker (legacyMarker ++ id) = none := by
  have e1 : legacyMarker ++ id = 'y' :: ("outube.com/v/".toList ++ id) := rfl
  rw [e1, patSearch_cons_step shortMarker 'y' ("outube.com/v/".toList ++ id) rfl,
    patSearch_skip shortMarker 'y' rfl "outube.com/v/".toList id (by decide)]
  exact patSearch_absent shortMarker '.' (by decide) id hdot

lemma embed_miss_legacy (id : List Char) (hdot : ∀ c ∈ id, c ≠ '.') :
    patSearch embedMarker (legacyMarker ++ id) = none := by
  have e1 : legacyMarker ++ id = 'y' :: ("outube.com/v/".toList ++ id) := rfl
  rw [e1, patSearch_cons_step embedMarker 'y' ("outube.com/v/".toList ++ id) rfl,
    patSearch_skip embedMarker 'y' rfl "outube.com/v/".toList id (by decide)]
  exact patSearch_absent embedMarker '.' (by decide) id hdot

/-! ## Claim theorems -/

/-- C7: for every 11-character token over `[A-Za-z0-9_-]`, applying
`extractYoutubeVideoId` to each of the four accepted URL shapes built from
the token — watch page, short link, embed page and legacy direct play,
with the protocol (`http://` or `https://`) and `www.` each optional —
returns exactly the token. -/
theorem extract_id_all_shapes (id : List Char) (proto : Option Bool) (www : Bool)
    (hlen : id.length = 11) (hchar : ∀ c ∈ id, isIdChar c = true) :
    extractYoutubeVideoId (urlWatch proto www id) = some id ∧
    extractYoutubeVideoId (urlShort proto www id) = some id ∧
    extractYoutubeVideoId (urlEmbed proto www id) = some id ∧
    extractYoutubeVideoId (urlLegacy proto www id) = some id := by
  have hne : id ≠ [] := by
    intro h
    rw [h] at hlen
    simp at hlen
  have hdelim : ∀ c ∈ id, isDelim c = false :=
    fun c hc => not_isDelim_of_isIdChar c (hchar c hc)
  have hdot : ∀ c ∈ id, c ≠ '.' :=
    fun c hc => ne_dot_of_isIdChar c (hchar c hc)
  have hpre := protoWww_no_y proto www
  have hw1 : patSearch watchMarker (urlWatch proto www id) = some id := by
    unfold urlWatch
    rw [patSearch_skip watchMarker 'y' rfl _ _ hpre]
    exact patSearch_hit watchMarker id (by decide) hdelim hne
  have hs0 : patSearch watchMarker (urlShort proto www id) = none := by
    unfold urlShort
    rw [patSearch_skip watchMarker 'y' rfl _ _ hpre]
    exact watch_miss_short id hdot
  have hs1 : patSearch shortMarker (urlShort proto www id) = some id := by
    unfold urlShort
    rw [patSearch_skip shortMarker 'y' rfl _ _ hpre]
    exact patSearch_hit shortMarker id (by decide) hdelim hne
  have he0 : patSearch watchMarker (urlEmbed proto www id) = none := by
    unfold urlEmbed
    rw [patSearch_skip watchMarker 'y' rfl _ _ hpre]
    exact watch_miss_embed id hdot
  have he1 : patSearch shortMarker (urlEmbed proto www id) = none := by
    unfold urlEmbed
    rw [patSearch_skip shortMarker 'y' rfl _ _ hpre]
    exact short_miss_embed id hdot
  have he2 : patSearch embedMarker (urlEmbed proto www id) = some id := by
    unfold urlEmbed
    rw [patSearch_skip embedMarker 'y' rfl _ _ hpre]
    exact patSearch_hit embedMarker id (by decide) hdelim hne
  have hl0 : patSearch watchMarker (urlLegacy proto www id) = none := by
    unfold urlLegacy
    rw [patSearch_skip watchMarker 'y' rfl _ _ hpre]
    exact watch_miss_legacy id hdot
  have hl1 : patSearch shortMarker (urlLegacy proto www id) = none := by
    unfold urlLegacy
    rw [patSearch_skip shortMarker 'y' rfl _ _ hpre]
    exact short_miss_legacy id hdot
  have hl2 : patSearch embedMarker (urlLegacy proto www id) = none := by
    unfold urlLegacy
    rw [patSearch_skip embedMarker 'y' rfl _ _ hpre]
    exact embed_miss_legacy id hdot
  have hl3 : patSearch legacyMarker (urlLegacy proto www id) = some id := by
    unfold urlLegacy
    rw [patSearch_skip legacyMarker 'y' rfl _ _ hpre]
    exact patSearch_hit legacyMarker id (by decide) hdelim hne
  refine ⟨?_, ?_, ?_, ?_⟩
  · simp [extractYoutubeVideoId, hw1]
  · simp [extractYoutubeVideoId, hs0, hs1]
  · simp [extractYoutubeVideoId, he0, he1, he2]
  · simp [extractYoutubeVideoId, hl0, hl1, hl2, hl3]

/-- Witness for C7 at the concrete token `dQw4w9WgXcQ` with `https://` and
`www.` present. -/
theorem extract_id_all_shapes_witness :
    ("dQw4w9WgXcQ".toList.length = 11 ∧ ∀ c ∈ "dQw4w9WgXcQ".toList, isIdChar c = true) ∧
    (extractYoutubeVideoId (urlWatch (some true) true "dQw4w9WgXcQ".toList) =
        some "dQw4w9WgXcQ".toList ∧
      extractYoutubeVideoId (urlShort (some true) true "dQw4w9WgXcQ".toList) =
        some "dQw4w9WgXcQ".toList ∧
      extractYoutubeVideoId (urlEmbed (some true) true "dQw4w9WgXcQ".toList) =
        some "dQw4w9WgXcQ".toList ∧
      extractYoutubeVideoId (urlLegacy (some true) true "dQw4w9WgXcQ".toList) =
        some "dQw4w9WgXcQ".toList) :=
  ⟨⟨by decide, by decide⟩,
   extract_id_all_shapes "dQw4w9WgXcQ".toList (some true) true (by decide) (by decide)⟩

/-- A concrete active video entry used to exercise the handlers. -/
def demoEntry : Entry :=
  { id := 1
    title := "Motion"
    description := "Chapter overview"
    bookTitle := "Physics"
    chapter := "Laws of Motion"
    type := "video"
    subject := some "Science"
    grade := some "9"
    difficulty := "medium"
    tags := ["physics"]
    views := 3
    likes := 0
    isActive := true
    createdAt := 10
    updatedAt := 10 }

/-- A concrete store holding just `demoEntry`. -/
def demoStore : List Entry := [demoEntry]

/-- C1: the claim says the effective page size always lies in [1,50].  The
controller only caps from above: `Math.min(parseInt('-5', 10) || 10, 50)`
evaluates to `-5`, which is used for the fetch, even though the repo's own
`validatePagination` helper clamps the same input to `1` and its
`queryValidationRules` declare `limit` must lie in [1,50].  The ceiling,
the defaulting and the zero case do behave as claimed. -/
theorem pageSize_bug_negative_limit :
    effectivePageSize (some "-5") = -5 ∧
    effectivePageSize (some "-5") < 1 ∧
    effectivePageSize (some "500") = 50 ∧
    effectivePageSize none = 10 ∧
    effectivePageSize (some "abc") = 10 ∧
    effectivePageSize (some "0") = 10 ∧
    (validatePagination { emptyListParams with limit := some "-5" }).limit = 1 ∧
    queryValidationRulesPass { emptyListParams with limit := some "-5" } = false := by
  decide

/-- C2: the claim says the effective page number is always at least 1.
Non-numeric and zero inputs do default to 1, but a negative numeric page
passes through unclamped: `parseInt('-5', 10) || 1` evaluates to `-5`,
while the repo's own `validatePagination` helper clamps the same input to
`1` and `queryValidationRules` declares `page` must be ≥ 1. -/
theorem pageNumber_bug_negative_page :
    effectivePageNumber (some "-5") = -5 ∧
    effectivePageNumber (some "-5") < 1 ∧
    effectivePageNumber (some "x") = 1 ∧
    effectivePageNumber (some "0") = 1 ∧
    effectivePageNumber none = 1 ∧
    (validatePagination { emptyListParams with page := some "-5" }).page = 1 ∧
    queryValidationRulesPass { emptyListParams with page := some "-5" } = false := by
  decide

/-- C3: the claim says a list request with `type` outside {video,image} or
`difficulty` outside {easy,medium,hard} is rejected with a validation
failure.  The route's `queryValidationRules` do fail such requests, but
`getAllVideos` never reads `validationResult`: it executes the query with
the bogus value as an exact-match filter and answers 200/success (here
with empty data, while the same store without the bogus filter returns
the entry). -/
theorem invalid_enum_filters_not_rejected :
    queryValidationRulesPass { emptyListParams with type := some "bogus" } = false ∧
    queryValidationRulesPass { emptyListParams with difficulty := some "extreme" } = false ∧
    (getAllVideos demoStore { emptyListParams with type := some "bogus" }).status = 200 ∧
    (getAllVideos demoStore { emptyListParams with type := some "bogus" }).success = true ∧
    (getAllVideos demoStore { emptyListParams with type := some "bogus" }).data = [] ∧
    (getAllVideos demoStore { emptyListParams with difficulty := some "extreme" }).status = 200 ∧
    (getAllVideos demoStore { emptyListParams with difficulty := some "extreme" }).success = true ∧
    (getAllVideos demoStore { emptyListParams with difficulty := some "extreme" }).data = [] ∧
    (getAllVideos demoStore emptyListParams).data = [demoEntry] := by
  decide

/-- Counterexample to C4 as stated: the controller applies no fallback.
With `sortBy=bogus` and `sortOrder=bogus` the sort pair is
`("bogus", 1)` — the unknown field is used verbatim and the direction is
ascending — not `("createdAt", -1)`; even a valid `sortBy` with an
invalid `sortOrder` sorts ascending rather than falling back to
descending. -/
theorem sort_fallback_counterexample :
    sortOptionsOf "bogus" "bogus" = ("bogus", 1) ∧
    sortOptionsOf "bogus" "bogus" ≠ ("createdAt", -1) ∧
    sortOptionsOf "createdAt" "bogus" ≠ ("createdAt", -1) := by
  decide

/-- C4 amended: sort inputs are never rejected (any request reaches the
200/success path), but the controller applies no fallback: it uses
`sortBy` verbatim as the sort field and sorts descending exactly when
`sortOrder = "desc"`, ascending for every other value.  The claimed
fallback behaviour exists only in the unused `validateSort` helper, whose
result always lies in the allowed field list (default
{createdAt, updatedAt, title, views} — without `likes`) and {asc, desc},
falling back to `createdAt`/`desc` on invalid input. -/
theorem sort_inputs_never_rejected_no_fallback
    (store : List Entry) (p : ListParams) (sb so : String) (af : List String) :
    (getAllVideos store p).status = 200 ∧
    (getAllVideos store p).success = true ∧
    (sortOptionsOf sb so).1 = sb ∧
    ((sortOptionsOf sb so).2 = -1 ↔ so = "desc") ∧
    ((sortOptionsOf sb so).2 = 1 ↔ so ≠ "desc") ∧
    ((validateSort sb so af).1 = sb ∨ (validateSort sb so af).1 = "createdAt") ∧
    ((validateSort sb so af).2 = so ∨ (validateSort sb so af).2 = "desc") ∧
    (sb ∉ af → (validateSort sb so af).1 = "createdAt") ∧
    (so ∉ ["asc", "desc"] → (validateSort sb so af).2 = "desc") := by
  refine ⟨rfl, rfl, rfl, ?_, ?_, ?_, ?_, ?_, ?_⟩
  · unfold sortOptionsOf
    by_cases h : so = "desc" <;> simp [h]
  · unfold sortOptionsOf
    by_cases h : so = "desc" <;> simp [h]
  · unfold validateSort
    by_cases h : sb ∈ af <;> simp [h]
  · unfold validateSort
    by_cases h : so ∈ ["asc", "desc"] <;> simp [h]
  · intro h
    unfold validateSort
    simp [h]
  · intro h
    unfold validateSort
    simp [h]

/-- Witness for C4's amended statement at a request carrying invalid sort
inputs. -/
theorem sort_amended_witness :
    (getAllVideos demoStore
        { emptyListParams with sortBy := some "bogus", sortOrder := some "bogus" }).success
        = true ∧
    (validateSort "bogus" "bogus" defaultSortFields).1 = "createdAt" ∧
    (validateSort "bogus" "bogus" defaultSortFields).2 = "desc" := by
  obtain ⟨-, h2, -, -, -, -, -, h8, h9⟩ :=
    sort_inputs_never_rejected_no_fallback demoStore
      { emptyListParams with sortBy := some "bogus", sortOrder := some "bogus" }
      "bogus" "bogus" defaultSortFields
  exact ⟨h2, h8 (by decide), h9 (by decide)⟩

/-- The rational ceiling computed by `Math.ceil(totalCount / pageSize)`
agrees with integer ceiling division for a positive page size. -/
lemma ceil_cast_div (tc n : ℕ) (hn : 1 ≤ n) :
    ⌈(tc : ℚ) / (n : ℚ)⌉ = ((tc + n - 1) / n : ℕ) := by
  have hnpos : 0 < n := hn
  have hn0 : (0 : ℚ) < (n : ℚ) := by exact_mod_cast hnpos
  obtain ⟨d, hd⟩ : ∃ d, (tc + n - 1) / n = d := ⟨_, rfl⟩
  have h1 := Nat.div_add_mod (tc + n - 1) n
  have h2 := Nat.mod_lt (tc + n - 1) hnpos
  rw [hd] at h1
  have hA : tc ≤ n * d := by omega
  have hB : n * d < tc + n := by omega
  have hA2 : (tc : ℚ) ≤ (n : ℚ) * (d : ℚ) := by exact_mod_cast hA
  have hB2 : (n : ℚ) * (d : ℚ) < (tc : ℚ) + (n : ℚ) := by exact_mod_cast hB
  rw [hd, Int.ceil_eq_iff]
  constructor
  · have key : ((d : ℕ) : ℚ) - 1 < (tc : ℚ) / (n : ℚ) := by
      rw [lt_div_iff₀ hn0]
      nlinarith [hB2]
    exact_mod_cast key
  · have key : (tc : ℚ) / (n : ℚ) ≤ ((d : ℕ) : ℚ) := by
      rw [div_le_iff₀ hn0]
      nlinarith [hA2]
    exact_mod_cast key

/-- C5: for effective page number, positive effective limit and total
count, the pagination metadata satisfies the specification:
`totalPages` is the integer ceiling of `totalCount / limit`,
`hasNextPage = (page < totalPages)`, `hasPrevPage = (page > 1)`, and
`nextPage`/`prevPage` hold the adjacent page exactly when the
corresponding flag is set, `null` otherwise. -/
theorem pagination_metadata_spec (totalCount : ℕ) (page : ℤ) (limit : ℕ)
    (hl : 1 ≤ limit) :
    paginationSpec totalCount page limit (computePagination totalCount page (limit : ℤ)) := by
  have hcast : (((limit : ℤ) : ℚ)) = (limit : ℚ) := by norm_cast
  have hceil : ⌈(totalCount : ℚ) / ((limit : ℤ) : ℚ)⌉
      = ((totalCount + limit - 1) / limit : ℕ) := by
    rw [hcast]
    exact ceil_cast_div totalCount limit hl
  unfold paginationSpec
  refine ⟨hceil, rfl, rfl, ?_, ?_, ?_, ?_, ?_, ?_⟩
  · show decide (page < ⌈(totalCount : ℚ) / ((limit : ℤ) : ℚ)⌉) = true ↔
      page < ⌈(totalCount : ℚ) / ((limit : ℤ) : ℚ)⌉
    exact decide_eq_true_iff
  · show decide (1 < page) = true ↔ 1 < page
    exact decide_eq_true_iff
  · intro h
    have hp : page < ⌈(totalCount : ℚ) / ((limit : ℤ) : ℚ)⌉ := of_decide_eq_true h
    show (if page < ⌈(totalCount : ℚ) / ((limit : ℤ) : ℚ)⌉ then some (page + 1) else none)
        = some (page + 1)
    rw [if_pos hp]
  · intro h
    have hp : ¬ page < ⌈(totalCount : ℚ) / ((limit : ℤ) : ℚ)⌉ := of_decide_eq_false h
    show (if page < ⌈(totalCount : ℚ) / ((limit : ℤ) : ℚ)⌉ then some (page + 1) else none)
        = none
    rw [if_neg hp]
  · intro h
    have hp : 1 < page := of_decide_eq_true h
    show (if 1 < page then some (page - 1) else none) = some (page - 1)
    rw [if_pos hp]
  · intro h
    have hp : ¬ 1 < page := of_decide_eq_false h
    show (if 1 < page then some (page - 1) else none) = none
    rw [if_neg hp]

/-- Witness for C5 at totalCount 3, page 1, limit 2. -/
theorem pagination_metadata_spec_witness :
    (1 : ℕ) ≤ 2 ∧ paginationSpec 3 1 2 (computePagination 3 1 ((2 : ℕ) : ℤ)) :=
  ⟨by decide, pagination_metadata_spec 3 1 2 (by decide)⟩

/-- Counterexample to C6 as stated: with zero matches the code still sets
`hasPrevPage = pageNumber > 1`, so requesting page 3 of an empty result
set reports `hasPrevPage = true`, not false. -/
theorem empty_result_hasPrevPage_counterexample :
    (computePagination 0 3 10).hasPrevPage = true ∧
    (computePagination 0 3 10).totalCount = 0 :=
  ⟨rfl, rfl⟩

/-- C6 amended: with `totalCount = 0` (and a positive effective limit)
`totalPages` is 0 and `hasNextPage` is false for every requested page ≥ 1;
`hasPrevPage`, however, is computed as `page > 1` regardless of the count,
so it is false exactly when the requested page is at most 1 (in
particular for the default page 1), and true for any requested page above
1. -/
theorem empty_result_pagination_amended (page : ℤ) (limit : ℕ) (_hl : 1 ≤ limit) :
    (computePagination 0 page (limit : ℤ)).totalPages = 0 ∧
    (1 ≤ page → (computePagination 0 page (limit : ℤ)).hasNextPage = false) ∧
    ((computePagination 0 page (limit : ℤ)).hasPrevPage = true ↔ 1 < page) := by
  have hz : ⌈((0 : ℕ) : ℚ) / ((limit : ℤ) : ℚ)⌉ = (0 : ℤ) := by simp
  refine ⟨hz, ?_, ?_⟩
  · intro hp
    show decide (page < ⌈((0 : ℕ) : ℚ) / ((limit : ℤ) : ℚ)⌉) = false
    rw [decide_eq_false_iff_not]
    intro hcon
    rw [hz] at hcon
    omega
  · show decide (1 < page) = true ↔ 1 < page
    exact decide_eq_true_iff

/-- Witness for C6's amended statement at page 1, limit 10. -/
theorem empty_result_pagination_amended_witness :
    (computePagination 0 1 ((10 : ℕ) : ℤ)).totalPages = 0 ∧
    (computePagination 0 1 ((10 : ℕ) : ℤ)).hasNextPage = false ∧
    ((computePagination 0 1 ((10 : ℕ) : ℤ)).hasPrevPage = true ↔ (1 : ℤ) < 1) := by
  obtain ⟨h1, h2, h3⟩ := empty_result_pagination_amended 1 10 (by decide)
  exact ⟨h1, h2 (by decide), h3⟩

/-! ## Helper lemmas: embed URL assembly -/

lemma append_ne_empty (a b : String) (ha : a ≠ "") : a ++ b ≠ "" := by
  intro hcon
  apply ha
  have h1 : (a ++ b).data = [] := by rw [hcon]
  have h2 : a.data ++ b.data = [] := h1
  exact String.ext (List.append_eq_nil.mp h2).1

lemma joinAmp_ne_empty :
    ∀ l : List String, l ≠ [] → (∀ s ∈ l, s ≠ "") → joinAmp l ≠ ""
  | [], hne, _ => absurd rfl hne
  | [s], _, hall => by simpa [joinAmp] using hall s (by simp)
  | s :: t :: more, _, hall => by
      show s ++ "&" ++ joinAmp (t :: more) ≠ ""
      exact append_ne_empty _ _ (append_ne_empty s "&" (hall s (by simp)))

lemma filterMap_id_cons (x : Option String) (xs : List (Option String)) :
    List.filterMap (fun y => y) (x :: xs) = x.toList ++ List.filterMap (fun y => y) xs := by
  cases x <;> simp

lemma seg_autoplay (a : Option Bool) :
    (a.bind (fun b => if b then some "autoplay=1" else none)).toList
      = (if a = some true then ["autoplay=1"] else []) := by
  rcases a with _ | b
  · rfl
  · cases b <;> rfl

lemma seg_mute (a : Option Bool) :
    (a.bind (fun b => if b then some "mute=1" else none)).toList
      = (if a = some true then ["mute=1"] else []) := by
  rcases a with _ | b
  · rfl
  · cases b <;> rfl

lemma seg_flag (name : String) (a : Option Bool) :
    (a.map (fun b => name ++ (if b then "1" else "0"))).toList
      = (match a with
         | some b => [name ++ (if b then "1" else "0")]
         | none => []) := by
  rcases a with _ | b <;> rfl

lemma seg_offset (name : String) (a : Option ℕ) :
    (a.bind (fun n => if n = 0 then none else some (name ++ toString n))).toList
      = (match a with
         | some n => if n = 0 then [] else [name ++ toString n]
         | none => []) := by
  rcases a with _ | n
  · rfl
  · by_cases h : n = 0 <;> simp [h]

/-- The parameter list built by `getEmbedUrl` coincides with the
spec-side description. -/
lemma embedParamsSpec_eq (o : EmbedOptions) :
    embedParamsSpec o =
      (if o.autoplay = some true then ["autoplay=1"] else []) ++
      (if o.mute = some true then ["mute=1"] else []) ++
      (match o.controls with
       | some b => ["controls=" ++ (if b then "1" else "0")]
       | none => []) ++
      (match o.showinfo with
       | some b => ["showinfo=" ++ (if b then "1" else "0")]
       | none => []) ++
      (match o.rel with
       | some b => ["rel=" ++ (if b then "1" else "0")]
       | none => []) ++
      (match o.start with
       | some n => if n = 0 then [] else ["start=" ++ toString n]
       | none => []) ++
      (match o.«end» with
       | some n => if n = 0 then [] else ["end=" ++ toString n]
       | none => []) := by
  unfold embedParamsSpec
  rw [filterMap_id_cons, filterMap_id_cons, filterMap_id_cons, filterMap_id_cons,
    filterMap_id_cons, filterMap_id_cons, filterMap_id_cons]
  simp only [List.filterMap_nil, List.append_nil]
  rw [seg_autoplay, seg_mute, seg_flag, seg_flag, seg_flag, seg_offset, seg_offset]
  simp [List.append_assoc]

/-- Every parameter the builder can emit is a nonempty `name=value` pair. -/
lemma embedParams_mem_ne_empty (o : EmbedOptions) :
    ∀ s ∈ embedParamsSpec o, s ≠ "" := by
  obtain ⟨a, m, c, si, r, st, en⟩ := o
  intro s hs
  unfold embedParamsSpec at hs
  rw [List.mem_filterMap] at hs
  obtain ⟨x, hx, hxeq⟩ := hs
  simp only [List.mem_cons, List.not_mem_nil, or_false] at hx
  intro hcon
  subst hcon
  rcases hx with h | h | h | h | h | h | h <;> subst h
  · rcases a with _ | b
    · exact absurd hxeq (by decide)
    · cases b <;> exact absurd hxeq (by decide)
  · rcases m with _ | b
    · exact absurd hxeq (by decide)
    · cases b <;> exact absurd hxeq (by decide)
  · rcases c with _ | b
    · exact absurd hxeq (by decide)
    · cases b <;> exact absurd hxeq (by decide)
  · rcases si with _ | b
    · exact absurd hxeq (by decide)
    · cases b <;> exact absurd hxeq (by decide)
  · rcases r with _ | b
    · exact absurd hxeq (by decide)
    · cases b <;> exact absurd hxeq (by decide)
  · rcases st with _ | n
    · exact absurd hxeq (by decide)
    · simp only [Option.some_bind] at hxeq
      by_cases h : n = 0
      · rw [if_pos h] at hxeq
        exact absurd hxeq (by simp)
      · rw [if_neg h] at hxeq
        exact append_ne_empty "start=" (toString n) (by decide) (Option.some.inj hxeq)
  · rcases en with _ | n
    · exact absurd hxeq (by decide)
    · simp only [Option.some_bind] at hxeq
      by_cases h : n = 0
      · rw [if_pos h] at hxeq
        exact absurd hxeq (by simp)
      · rw [if_neg h] at hxeq
        exact append_ne_empty "end=" (toString n) (by decide) (Option.some.inj hxeq)

/-- Counterexample to C8 as stated: an explicitly supplied `start: 0` is
truthiness-tested, so it is dropped — the output is the bare embed
template and contains no `start` parameter at all, although the claim
says a supplied offset of 0 appears in the output. -/
theorem embed_start_zero_counterexample :
    getEmbedUrl "dQw4w9WgXcQ" ⟨none, none, none, none, none, some 0, none⟩ =
      some "https://www.youtube.com/embed/dQw4w9WgXcQ" ∧
    containsList "start".toList "https://www.youtube.com/embed/dQw4w9WgXcQ".toList = false := by
  constructor
  · decide
  · decide

/-- C8 amended: for every nonempty identifier and option set, the embed
URL is the bare template followed by exactly the parameters of
`embedParamsSpec`: `autoplay`/`mute` appear (as `"1"`) only when
requested true, `controls`/`showinfo`/`rel` appear as `"1"`/`"0"`
whenever supplied, and `start`/`end` appear verbatim only when supplied
nonzero — an explicitly supplied offset 0 is omitted; with no requested
options the result is the bare embed template. -/
theorem embed_url_params_amended (videoId : String) (o : EmbedOptions)
    (h : videoId ≠ "") :
    getEmbedUrl videoId o = some (assembleEmbedUrl videoId (embedParamsSpec o)) := by
  simp only [getEmbedUrl, assembleEmbedUrl]
  rw [if_neg h, ← embedParamsSpec_eq]
  by_cases hL : embedParamsSpec o = []
  · rw [hL]
    simp [joinAmp]
  · rw [if_neg hL, if_neg (joinAmp_ne_empty _ hL (embedParams_mem_ne_empty o))]

/-- Witness for C8's amended statement with `autoplay` and a nonzero
start offset requested. -/
theorem embed_url_params_amended_witness :
    "dQw4w9WgXcQ" ≠ "" ∧
    getEmbedUrl "dQw4w9WgXcQ" ⟨some true, none, none, none, none, some 7, none⟩ =
      some (assembleEmbedUrl "dQw4w9WgXcQ"
        (embedParamsSpec ⟨some true, none, none, none, none, some 7, none⟩)) :=
  ⟨by decide, embed_url_params_amended "dQw4w9WgXcQ" ⟨some true, none, none, none, none, some 7, none⟩ (by decide)⟩

/-- C9: a soft-deleted entry (`isActive = false`) never appears in the
output of the list handler, the single-item handler, the statistics
aggregation (recent entries and top-book groups), or the
metadata-distinct handlers, even when it matches every filter: every
store query is built over `isActive: true` (for the single-item handler,
an inactive match is answered 404). -/
theorem inactive_entries_excluded (store : List Entry) (p : ListParams) (i : ℕ)
    (e : Entry) (s bt : String) (c : ℕ) :
    (e ∈ (getAllVideos store p).data → e.isActive = true) ∧
    (getVideoById store i = some e → e.isActive = true) ∧
    (e ∈ (getVideoStats store).recentVideos → e.isActive = true) ∧
    (s ∈ getUniqueBooks store → ∃ e2 ∈ store, e2.isActive = true ∧ e2.bookTitle = s) ∧
    (s ∈ getChaptersByBook store bt → ∃ e2 ∈ store, e2.isActive = true ∧ e2.chapter = s) ∧
    ((s, c) ∈ (getVideoStats store).topBooks →
      ∃ e2 ∈ store, e2.isActive = true ∧ e2.bookTitle = s) := by
  refine ⟨?_, ?_, ?_, ?_, ?_, ?_⟩
  · intro hmem
    simp only [getAllVideos] at hmem
    have h1 := List.take_subset _ _ hmem
    have h2 := List.drop_subset _ _ h1
    have h3 := mem_sortListBy.mp h2
    have h4 := (List.mem_filter.mp h3).2
    simp only [queryMatches, Bool.and_eq_true] at h4
    exact h4.1.1.1.1.1.1.1
  · intro hget
    unfold getVideoById at hget
    cases hfind : store.find? (fun e2 => e2.id == i) with
    | none =>
      rw [hfind] at hget
      simp at hget
    | some v =>
      rw [hfind] at hget
      simp only [Option.some_bind] at hget
      by_cases hact : v.isActive = true
      · rw [if_pos hact] at hget
        have he := Option.some.inj hget
        rw [← he]
        exact hact
      · rw [if_neg hact] at hget
        simp at hget
  · intro hmem
    simp only [getVideoStats] at hmem
    have h1 := List.take_subset _ _ hmem
    have h2 := mem_sortListBy.mp h1
    exact (List.mem_filter.mp h2).2
  · intro hs
    unfold getUniqueBooks at hs
    have h1 := mem_sortListBy.mp hs
    have h2 := List.mem_dedup.mp h1
    obtain ⟨e2, he2, heq⟩ := List.mem_map.mp h2
    obtain ⟨hin, hact⟩ := List.mem_filter.mp he2
    exact ⟨e2, hin, hact, heq⟩
  · intro hs
    unfold getChaptersByBook at hs
    have h1 := mem_sortListBy.mp hs
    have h2 := List.mem_dedup.mp h1
    obtain ⟨e2, he2, heq⟩ := List.mem_map.mp h2
    obtain ⟨hin, hboth⟩ := List.mem_filter.mp he2
    rw [Bool.and_eq_true] at hboth
    exact ⟨e2, hin, hboth.2, heq⟩
  · intro hmem
    simp only [getVideoStats] at hmem
    have h1 := List.take_subset _ _ hmem
    have h2 := mem_sortListBy.mp h1
    obtain ⟨b, hb, heq⟩ := List.mem_map.mp h2
    have h3 := List.mem_dedup.mp hb
    obtain ⟨e2, he2, hbt⟩ := List.mem_map.mp h3
    obtain ⟨hin, hact⟩ := List.mem_filter.mp he2
    refine ⟨e2, hin, hact, ?_⟩
    rw [hbt]
    exact (Prod.ext_iff.mp heq).1

/-- Witness for C9: the demo entry returned by the list handler is
active. -/
theorem inactive_entries_excluded_witness :
    demoEntry ∈ (getAllVideos demoStore emptyListParams).data ∧
    demoEntry.isActive = true :=
  ⟨by decide,
   (inactive_entries_excluded demoStore emptyListParams 0 demoEntry "" "" 0).1 (by decide)⟩

/-- Record-update by the delete handler applied twice is the same as
applied once. -/
lemma setInactive_idem (e : Entry) :
    ({ { e with isActive := false } with isActive := false } : Entry)
      = { e with isActive := false } := rfl

/-- C10: the delete operation is idempotent.  Deleting an existing entry
succeeds and leaves every entry with that id inactive; re-running the
delete on the resulting store still succeeds (the lookup ignores
`isActive`, so an already soft-deleted entry is found, not answered 404)
and leaves the store unchanged. -/
theorem delete_idempotent (store : List Entry) (i : ℕ) :
    ((∃ e ∈ store, e.id = i) →
      ∃ ns, deleteVideo store i = some ns ∧ ∀ e ∈ ns, e.id = i → e.isActive = false) ∧
    (∀ ns, deleteVideo store i = some ns → deleteVideo ns i = some ns) := by
  constructor
  · rintro ⟨e0, he0, hid⟩
    have hany : store.any (fun e => e.id == i) = true := by
      rw [List.any_eq_true]
      exact ⟨e0, he0, by simp [hid]⟩
    refine ⟨store.map (fun e => if e.id == i then { e with isActive := false } else e),
      ?_, ?_⟩
    · unfold deleteVideo
      rw [if_pos hany]
    · intro e he hid2
      obtain ⟨e2, he2, heq⟩ := List.mem_map.mp he
      by_cases h : (e2.id == i) = true
      · rw [if_pos h] at heq
        rw [← heq]
      · rw [if_neg h] at heq
        exact absurd (beq_iff_eq.mpr (by rw [heq]; exact hid2)) h
  · intro ns hns
    unfold deleteVideo at hns
    by_cases hany : store.any (fun e => e.id == i) = true
    · rw [if_pos hany] at hns
      have hns2 : ns = store.map (fun e => if e.id == i then { e with isActive := false } else e) :=
        (Option.some.inj hns).symm
      subst hns2
      unfold deleteVideo
      have hany2 :
          (store.map (fun e => if e.id == i then { e with isActive := false } else e)).any
            (fun e => e.id == i) = true := by
        rw [List.any_eq_true] at hany ⊢
        obtain ⟨e0, he0, hbe⟩ := hany
        refine ⟨if e0.id == i then { e0 with isActive := false } else e0,
          List.mem_map.mpr ⟨e0, he0, rfl⟩, ?_⟩
        rw [if_pos hbe]
        exact hbe
      rw [if_pos hany2]
      congr 1
      rw [List.map_map]
      apply List.map_congr_left
      intro e _
      by_cases h : (e.id == i) = true
      · simp [Function.comp, h]
      · simp [Function.comp, h]
    · rw [if_neg hany] at hns
      exact absurd hns (by simp)

/-- A concrete already-soft-deleted entry. -/
def demoDeleted : Entry := { demoEntry with isActive := false }

/-- Witness for C10: deleting the demo entry succeeds and marks it
inactive, and deleting an already-deleted entry still succeeds and
changes nothing. -/
theorem delete_idempotent_witness :
    (∃ ns, deleteVideo demoStore 1 = some ns ∧ ∀ e ∈ ns, e.id = 1 → e.isActive = false) ∧
    deleteVideo [demoDeleted] 1 = some [demoDeleted] :=
  ⟨(delete_idempotent demoStore 1).1 (by decide),
   (delete_idempotent [demoDeleted] 1).2 [demoDeleted] (by decide)⟩
